import Mathlib

/-!
Verification development for the hissrv data-history service
(src/app: data_collector, data_storage, scheduler, query_service, api/routes).

Python dynamic values are modelled by the tagged type `PyVal`; Python floats are
modelled as exact rationals (no claim below depends on IEEE rounding); instants
(datetimes) are modelled as rational Unix epoch seconds.  String→number parsing
models the core grammar of CPython's `float()` / `int()` on the relevant inputs:
optional sign, decimal digits, optional decimal point and optional exponent for
`float()`; optional sign and decimal digits for `int()` (special spellings such
as `inf`, `nan`, embedded underscores and surrounding whitespace are outside the
modelled fragment; no claim depends on them).
-/

namespace Hissrv

/-- Model of a Python dynamic value as it flows through the collector/storage
pipeline: int, float, bool, str, or None (`value` fields are typed `Any`). -/
inductive PyVal where
  | pint : ℤ → PyVal
  | pfloat : ℚ → PyVal
  | pbool : Bool → PyVal
  | pstr : String → PyVal
  | pnone : PyVal
deriving DecidableEq

/-- Numeric value of a decimal digit character. -/
def charDigit (c : Char) : ℕ := c.toNat - '0'.toNat

/-- The natural number denoted by a list of decimal digit characters. -/
def natOfDigits (l : List Char) : ℕ := l.foldl (fun a c => a * 10 + charDigit c) 0

/-- Strip an optional leading sign; returns (isNegative, rest). -/
def splitSign : List Char → Bool × List Char
  | '-' :: rest => (true, rest)
  | '+' :: rest => (false, rest)
  | l => (false, l)

/-- All characters are decimal digits. -/
def allDigits (l : List Char) : Bool := l.all (·.isDigit)

/-- Split a float literal body into mantissa and optional exponent part
(the part after a single `e`/`E`). -/
def mantExp (l : List Char) : List Char × Option (List Char) :=
  let m := l.takeWhile fun c => !(c == 'e' || c == 'E')
  match l.dropWhile (fun c => !(c == 'e' || c == 'E')) with
  | [] => (m, none)
  | _ :: rest => (m, some rest)

/-- Parse an unsigned mantissa `digits [. digits]` (at least one digit overall),
as a numerator together with the count of fractional digits. -/
def parseMant (l : List Char) : Option (ℕ × ℕ) :=
  let intPart := l.takeWhile (·.isDigit)
  match l.dropWhile (·.isDigit) with
  | [] => if intPart.isEmpty then none else some (natOfDigits intPart, 0)
  | '.' :: frac =>
    if allDigits frac then
      if intPart.isEmpty && frac.isEmpty then none
      else some (natOfDigits intPart * 10 ^ frac.length + natOfDigits frac, frac.length)
    else none
  | _ => none

/-- Parse a signed exponent `[+|-] digits`. -/
def parseExp (l : List Char) : Option ℤ :=
  let (neg, ds) := splitSign l
  if ds.isEmpty || !allDigits ds then none
  else some (if neg then -(natOfDigits ds : ℤ) else (natOfDigits ds : ℤ))

/-- Model of CPython `float(s)` on a string (core grammar, see file header):
`[+|-] digits [. digits] [(e|E) [+|-] digits]`, also `.digits`.  Returns the
exact rational denoted, or `none` where `float()` raises `ValueError`.
The rational `(sign) mant × 10^(z − fracDigits)` is assembled with one `mkRat`. -/
def pyFloatParse (s : String) : Option ℚ :=
  let (neg, cs) := splitSign s.toList
  let (m, e) := mantExp cs
  match parseMant m with
  | none => none
  | some (mant, fracLen) =>
    match e with
    | none => some (mkRat (if neg then -(mant : ℤ) else (mant : ℤ)) (10 ^ fracLen))
    | some el =>
      match parseExp el with
      | none => none
      | some z =>
        let num : ℕ := mant * 10 ^ z.toNat
        let den : ℕ := 10 ^ fracLen * 10 ^ (-z).toNat
        some (mkRat (if neg then -(num : ℤ) else (num : ℤ)) den)

/-- Model of CPython `int(s)` on a string (core grammar): `[+|-] digits`.
Returns `none` where `int()` raises `ValueError`. -/
def pyIntParse (s : String) : Option ℤ :=
  let (neg, ds) := splitSign s.toList
  if ds.isEmpty || !allDigits ds then none
  else some (if neg then -(natOfDigits ds : ℤ) else (natOfDigits ds : ℤ))

/-- Python `c in s` character membership test (`'.' in value`). -/
def strContainsChar (s : String) (c : Char) : Bool := s.toList.contains c

/-- Python `str.lower()` (ASCII fragment, which covers the compared literals). -/
def strLower (s : String) : String := String.mk (s.toList.map Char.toLower)

/-- The fallback of `DataCollector._convert_value` after numeric parsing fails:
`if value.lower() in ('true', 'false'): return value.lower() == 'true'`, else
the string is kept unchanged (src/app/services/data_collector.py lines 121-126). -/
def convertFallback (s : String) : PyVal :=
  if strLower s == "true" || strLower s == "false" then .pbool (strLower s == "true")
  else .pstr s

/-- Embeds `DataCollector._convert_value`
(src/app/services/data_collector.py lines 112-127): for a string, if it
contains `.` attempt `float()`, else attempt `int()`; on `ValueError` fall back
to the boolean comparison, else keep the string; non-strings pass through. -/
def convert_value : PyVal → PyVal
  | .pstr s =>
    if strContainsChar s '.' then
      match pyFloatParse s with
      | some q => .pfloat q
      | none => convertFallback s
    else
      match pyIntParse s with
      | some n => .pint n
      | none => convertFallback s
  | v => v

/-- Decidable statement that both numeric parse attempts of `_convert_value`
fail on `s` (only the branch selected by the `.`-test is ever attempted). -/
def numericParseFails (s : String) : Bool :=
  if strContainsChar s '.' then (pyFloatParse s).isNone else (pyIntParse s).isNone

/-! ### Key exclusion (`DataCollector.should_exclude_key`) -/

/-- Wildcard match of a pattern against an entire character sequence: `*`
matches any substring (the star case tries every suffix of the key), every
other pattern character is a literal. -/
def globMatch : List Char → List Char → Bool
  | [], ks => ks.isEmpty
  | p :: pr, ks =>
    if p = '*' then
      ks.tails.any fun suf => globMatch pr suf
    else
      match ks with
      | [] => false
      | k :: kr => p == k && globMatch pr kr

/-- `re.match(pattern.replace('*', '.*'), key)` for patterns built from literal
characters and `*` (no other regex metacharacters occur in the modelled
patterns): the translated regex matches at the start of the key but is not
anchored at the end, so the test succeeds iff the wildcard pattern matches some
prefix of the key. -/
def reMatchStar (pattern key : String) : Bool :=
  (List.range (key.toList.length + 1)).any fun i =>
    globMatch pattern.toList (key.toList.take i)

/-- Embeds `DataCollector.should_exclude_key`
(src/app/services/data_collector.py lines 44-49): the key is excluded iff
`re.match(pattern.replace('*', '.*'), key)` succeeds for some configured
exclusion pattern. -/
def should_exclude_key (exclude_patterns : List String) (key : String) : Bool :=
  exclude_patterns.any fun p => reMatchStar p key

/-- The matcher described by the claim (C8): pure wildcard glob that must match
the WHOLE key, so that pattern `dev` matches only the key `dev`.  Stated for
refinement comparison against `should_exclude_key`. -/
def claimGlobExcludes (exclude_patterns : List String) (key : String) : Bool :=
  exclude_patterns.any fun p => globMatch p.toList key.toList

/-! ### Timestamp resolution (`DataCollector.collect_data_from_pattern`) -/

/-- First value bound to the field name in a hash (Python dict lookup on the
modelled association list). -/
def lookupField (h : List (String × String)) (f : String) : Option String :=
  (h.find? fun kv => kv.1 == f).map (·.2)

/-- Python truthiness filter on an optional string: `None` and `""` are falsy. -/
def truthyStr : Option String → Option String
  | some s => if s == "" then none else some s
  | none => none

/-- Embeds the timestamp resolution of `DataCollector.collect_data_from_pattern`
(src/app/services/data_collector.py lines 78-87):
`timestamp_str = hash_data.pop('_timestamp', None) or hash_data.pop('__updated', None)`
selects the first TRUTHY of the two fields; then `float(timestamp_str)` is
attempted and on `ValueError`/`TypeError` the current wall-clock time is used.
`now` is the value of `datetime.utcnow()`; instants are epoch seconds. -/
def resolveTimestamp (now : ℚ) (h : List (String × String)) : ℚ :=
  let timestamp_str :=
    match truthyStr (lookupField h "_timestamp") with
    | some s => some s
    | none => truthyStr (lookupField h "__updated")
  match timestamp_str with
  | some s =>
    match pyFloatParse s with
    | some q => q
    | none => now
  | none => now

/-! ### Storage encoder (`DataStorage.create_point_from_history_data`) -/

/-- Model of `app.models.data_models.HistoryData` (timestamp as epoch seconds). -/
structure HistoryData where
  timestamp : ℚ
  redis_key : String
  point_id : String
  value : PyVal
  source : String
deriving DecidableEq

/-- Python `str.split(':')` on character lists (single-character separator). -/
def splitColonAux : List Char → List Char → List (List Char)
  | [], acc => [acc.reverse]
  | x :: xs, acc =>
    if x = ':' then acc.reverse :: splitColonAux xs []
    else splitColonAux xs (x :: acc)

/-- Python `redis_key.split(':')` (never returns an empty list: `''` yields `['']`). -/
def pySplitColon (s : String) : List String :=
  (splitColonAux s.toList []).map String.mk

/-- Embeds `DataStorage.create_measurement_name`
(src/app/services/data_storage.py lines 24-28): the first colon-delimited part
of the Redis key, `"data"` in the (unreachable) empty-split case. -/
def create_measurement_name (redis_key : String) : String :=
  match pySplitColon redis_key with
  | [] => "data"
  | p :: _ => p

/-- `isinstance(v, (int, float))`.  In CPython `bool` is a subclass of `int`,
so this is `true` for booleans as well. -/
def isinstance_int_float : PyVal → Bool
  | .pint _ => true
  | .pfloat _ => true
  | .pbool _ => true
  | _ => false

/-- `isinstance(v, bool)`. -/
def isinstance_bool : PyVal → Bool
  | .pbool _ => true
  | _ => false

/-- `isinstance(v, str)`. -/
def isinstance_str : PyVal → Bool
  | .pstr _ => true
  | _ => false

/-- `float(v)` for a numeric or boolean `v` (`float(True) = 1.0`). -/
def pyFloatOf : PyVal → ℚ
  | .pint n => mkRat n 1
  | .pfloat q => q
  | .pbool b => if b then 1 else 0
  | _ => 0

/-- `int(v)` for a boolean `v`. -/
def pyIntOf : PyVal → ℤ
  | .pbool b => if b then 1 else 0
  | .pint n => n
  | _ => 0

/-- The string payload of a `.pstr` (used only under an `isinstance_str` guard). -/
def pyStrVal : PyVal → String
  | .pstr s => s
  | _ => ""

/-- `str(v)` for the final fallback branch of the encoder; of the modelled
values only `None` reaches it. -/
def pyStrOf : PyVal → String
  | .pnone => "None"
  | .pstr s => s
  | _ => ""

/-- Model of an `influxdb_client_3.Point`: measurement, tag pairs, field pairs
(in the order the source adds them) and a timestamp. -/
structure Point where
  measurement : String
  tags : List (String × String)
  fields : List (String × PyVal)
  time : ℚ
deriving DecidableEq

/-- `point.tag(k, v)`. -/
def Point.tag (p : Point) (k v : String) : Point :=
  { p with tags := p.tags ++ [(k, v)] }

/-- `point.field(k, v)`. -/
def Point.field (p : Point) (k : String) (v : PyVal) : Point :=
  { p with fields := p.fields ++ [(k, v)] }

/-- Value of the first field named `k` on a point. -/
def Point.getField (p : Point) (k : String) : Option PyVal :=
  (p.fields.find? fun kv => kv.1 == k).map (·.2)

/-- Embeds `DataStorage.create_point_from_history_data`
(src/app/services/data_storage.py lines 30-77), preserving the branch ORDER of
the source: `if isinstance(value, (int, float))` comes first and, because
CPython's `bool` is a subclass of `int`, it also captures booleans — the
`elif isinstance(value, bool)` branch that would add the `boolean_value` field
is unreachable.  String values go through `float()`; other values are
stringified with a default `value = 0.0`.  Timezone normalization of the
timestamp is the identity on the epoch-seconds model. -/
def create_point_from_history_data (d : HistoryData) : Point :=
  let measurement := create_measurement_name d.redis_key
  let p : Point := { measurement := measurement, tags := [], fields := [], time := d.timestamp }
  let p := ((p.tag "redis_key" d.redis_key).tag "point_id" d.point_id).tag "source" d.source
  if isinstance_int_float d.value then
    p.field "value" (.pfloat (pyFloatOf d.value))
  else if isinstance_bool d.value then
    (p.field "value" (.pint (pyIntOf d.value))).field "boolean_value" d.value
  else if isinstance_str d.value then
    match pyFloatParse (pyStrVal d.value) with
    | some q => p.field "value" (.pfloat q)
    | none => ((p.field "string_value" (.pstr (pyStrVal d.value))).field "value" (.pfloat 0))
  else
    ((p.field "string_value" (.pstr (pyStrOf d.value))).field "value" (.pfloat 0))

/-! ### Batch write (`DataStorage.store_batch_data`) -/

/-- Model of the result dict of `store_batch_data`. -/
structure BatchResult where
  total : ℕ
  success : ℕ
  failed : ℕ
  errors : List String
deriving DecidableEq

/-- Embeds `DataStorage.store_batch_data`
(src/app/services/data_storage.py lines 96-137).  The per-sample encoder is a
parameter returning `Except`: `.error e` models `create_point_from_history_data`
raising (possible since `HistoryData.value` is typed `Any` — e.g. a value whose
`str()` raises), `.ok` the built point; each failure increments `failed` and
appends to `errors` without stopping the loop.  `write_ok` is the boolean
returned by `influxdb_manager.write_points` (which catches its own exceptions).
On write failure the source ASSIGNS `result["failed"] = len(points)` —
overwriting, not adding to, the per-sample failure count — and `success`
stays 0.  `storeBatchStep` is the body of the encoding loop. -/
def storeBatchStep {α : Type} (encode : α → Except String Point)
    (acc : BatchResult × List Point) (d : α) : BatchResult × List Point :=
  match encode d with
  | .ok pt => (acc.1, acc.2 ++ [pt])
  | .error e =>
    ({ acc.1 with
        failed := acc.1.failed + 1,
        errors := acc.1.errors ++ ["创建数据点失败: " ++ e] }, acc.2)

def store_batch_data {α : Type} (encode : α → Except String Point) (write_ok : Bool)
    (data_list : List α) : BatchResult :=
  let init : BatchResult × List Point :=
    ({ total := data_list.length, success := 0, failed := 0, errors := [] }, [])
  let folded := data_list.foldl (storeBatchStep encode) init
  let result := folded.1
  let points := folded.2
  if points.isEmpty then result
  else if write_ok then { result with success := points.length }
  else { result with failed := points.length,
                     errors := result.errors ++ ["InfluxDB批量写入失败"] }

/-- The points successfully encoded from a list (in order). -/
def encodedPoints {α : Type} (encode : α → Except String Point) (l : List α) : List Point :=
  l.filterMap fun d => (encode d).toOption

/-- The number of samples whose encoding fails. -/
def encodeFailures {α : Type} (encode : α → Except String Point) (l : List α) : ℕ :=
  l.countP fun d => (encode d).toOption.isNone

/-! ### Scheduler recent-errors list (`SchedulerService.stats["errors"]`) -/

/-- The `type` tag attached to a recorded error entry
(src/app/services/scheduler.py). -/
inductive TaskKind where
  | scheduler
  | collection
  | storage
  | flush
  | health_check
  | cleanup
  | statistics
deriving DecidableEq

/-- One observable mutation of `stats["errors"]` during scheduler execution. -/
inductive SchedEvent where
  /-- An uncaught exception in the `_run_scheduler` loop
  (src/app/services/scheduler.py lines 118-127): append a `scheduler` entry,
  then `self.stats["errors"] = self.stats["errors"][-10:]`. -/
  | schedulerError
  /-- An error append performed by any task handler — `_collect_and_store_data`,
  `_collect_data_to_buffer`, `_flush_buffer_to_storage`, `_health_check`,
  `_cleanup_old_data`, `_generate_statistics` — none of which truncates. -/
  | taskError (k : TaskKind)
  /-- A task execution that records no error leaves the list unchanged. -/
  | quiet
deriving DecidableEq

/-- Python `lst[-10:]`. -/
def lastTen (l : List TaskKind) : List TaskKind := l.drop (l.length - 10)

/-- Effect of one event on `stats["errors"]`, transcribed from the handlers of
src/app/services/scheduler.py: only the scheduler-loop handler truncates. -/
def recordEvent (errors : List TaskKind) : SchedEvent → List TaskKind
  | .schedulerError => lastTen (errors ++ [.scheduler])
  | .taskError k => errors ++ [k]
  | .quiet => errors

/-- `stats["errors"]` after a sequence of events, starting from the empty list
set in `SchedulerService.__init__`. -/
def runEvents (evs : List SchedEvent) : List TaskKind :=
  evs.foldl recordEvent []

/-! ### Collection buffer (`SchedulerService._collect_data_to_buffer` /
`_flush_buffer_to_storage`) -/

/-- Buffer state plus ghost history: `flushed` collects the batch handed to
`store_batch_data` by each drain, `appended` the concatenation of every sample
ever appended. -/
structure BufState (α : Type) where
  buffer : List α
  flushed : List (List α)
  appended : List α

/-- One critical section against the buffer. -/
inductive BufStep (α : Type) where
  /-- `_collect_data_to_buffer`: if nothing was collected the task returns
  early; otherwise `self.data_buffer.extend(history_data)` under the lock. -/
  | collect (samples : List α)
  /-- `_flush_buffer_to_storage`: under the lock, an empty buffer is a no-op;
  otherwise `data_to_flush = self.data_buffer.copy(); self.data_buffer.clear()`
  and the detached copy is handed to storage. -/
  | flush

/-- Transcribes the two critical sections of src/app/services/scheduler.py
(lines 189-192 and 215-223); each constructor of `BufStep` is executed
atomically, which is exactly what the lock guarantees. -/
def bufApply {α : Type} (s : BufState α) : BufStep α → BufState α
  | .collect xs =>
    if xs.isEmpty then s
    else { s with buffer := s.buffer ++ xs, appended := s.appended ++ xs }
  | .flush =>
    if s.buffer.isEmpty then s
    else { s with buffer := [], flushed := s.flushed ++ [s.buffer] }

/-- State after an arbitrary interleaving of collect and flush critical
sections, starting from the empty buffer of `SchedulerService.__init__`. -/
def bufRun {α : Type} (steps : List (BufStep α)) : BufState α :=
  steps.foldl bufApply { buffer := [], flushed := [], appended := [] }

/-! ### Query service (`QueryService.query_history_data`) -/

/-- Model of `app.models.data_models.QueryRequest` (times as epoch seconds). -/
structure QueryRequest where
  start_time : Option ℚ
  end_time : Option ℚ
  redis_keys : Option (List String)
  point_ids : Option (List String)
  sources : Option (List String)
  interval : ℕ
  page : ℕ
  page_size : ℕ

/-- Embeds `QueryService._get_measurement_from_redis_key`
(src/app/services/query_service.py lines 23-26). -/
def get_measurement_from_redis_key (redis_key : String) : String :=
  match pySplitColon redis_key with
  | [] => "data"
  | p :: _ => p

/-- One stored row as the generated SQL reads it (`time, redis_key, point_id,
source, value` from a measurement table).  `measurement` names the table the
row lives in — `DataStorage` writes each point into the table named by
`create_measurement_name` of its Redis key. -/
structure Row where
  measurement : String
  time : ℚ
  redis_key : String
  point_id : String
  source : String
  value : ℚ
deriving DecidableEq

/-- An OR-group of `_build_filters`
(src/app/services/query_service.py lines 38-57): a filter list is applied only
when truthy (non-`None` and non-empty); an applied group holds iff the row's
field equals one of the listed values. -/
def orGroupHolds (f : Option (List String)) (v : String) : Bool :=
  match f with
  | some (x :: xs) => (x :: xs).contains v
  | _ => true

/-- The effective `[start, end]` range of `query_history_data`
(src/app/services/query_service.py lines 83-84): missing end defaults to `now`,
missing start to 24 hours before the effective end. -/
def effectiveRange (now : ℚ) (req : QueryRequest) : ℚ × ℚ :=
  let e := req.end_time.getD now
  let s := req.start_time.getD (e - 86400)
  (s, e)

/-- The WHERE clause of the generated SQL, evaluated on one row: the time
filter of `_build_time_filter` AND every applied OR-group of `_build_filters`. -/
def rowMatches (now : ℚ) (req : QueryRequest) (r : Row) : Bool :=
  decide ((effectiveRange now req).1 ≤ r.time) &&
  decide (r.time ≤ (effectiveRange now req).2) &&
  orGroupHolds req.redis_keys r.redis_key &&
  orGroupHolds req.point_ids r.point_id &&
  orGroupHolds req.sources r.source

/-- The measurement the generated SQL selects FROM
(src/app/services/query_service.py lines 92-99): derived from the FIRST listed
Redis key when `request.redis_keys` is truthy; otherwise the wildcard
measurement `"*"` standing for every table. -/
def requestMeasurement (req : QueryRequest) : String :=
  match req.redis_keys with
  | some (k :: _) => get_measurement_from_redis_key k
  | _ => "*"

/-- Insert into a list kept sorted by `time` descending. -/
def insertDesc (r : Row) : List Row → List Row
  | [] => [r]
  | x :: xs => if x.time < r.time then r :: x :: xs else x :: insertDesc r xs

/-- `ORDER BY time DESC`. -/
def sortByTimeDesc (l : List Row) : List Row := l.foldr insertDesc []

/-- The rows the generated SQL selects before ordering and pagination: the
rows of the selected measurement table (all tables for the wildcard) passing
the WHERE clause. -/
def selectedRows (store : List Row) (now : ℚ) (req : QueryRequest) : List Row :=
  let m := requestMeasurement req
  let table := if m = "*" then store else store.filter fun r => r.measurement == m
  table.filter (rowMatches now req)

/-- Embeds `QueryService.query_history_data`
(src/app/services/query_service.py lines 79-153) together with the backend's
evaluation of the generated SQL: select from the measurement of the first
listed Redis key (or every table), filter by time range and OR-groups,
`ORDER BY time DESC`, then `LIMIT page_size OFFSET (page-1)*page_size`.
The SQL is built from the request WITHOUT ever reading `request.interval`:
no aggregation of any kind is applied. -/
def query_history_data (store : List Row) (now : ℚ) (req : QueryRequest) : List Row :=
  ((sortByTimeDesc (selectedRows store now req)).drop ((req.page - 1) * req.page_size)).take
    req.page_size

/-- Default of `config_loader.get_data_collection_interval()` (seconds), the
collection interval `C` of the downsampling claims
(src/app/core/config_loader.py lines 155-157). -/
def data_collection_interval_default : ℕ := 5

/-! ### Statistics route (`routes.query_statistics`) -/

/-- The method names the class `QueryService` defines
(src/app/services/query_service.py).  Python resolves
`query_service.query_statistics` by attribute lookup against these;
`query_statistics` is NOT among them. -/
def query_service_method_names : List String :=
  ["_get_measurement_from_redis_key", "_build_time_filter", "_build_filters",
   "_parse_interval_to_seconds", "query_history_data",
   "_convert_record_to_history_data", "get_latest_data", "get_data_range_info",
   "test_connection"]

/-- Aggregations accepted by the route (src/app/api/routes.py line 216). -/
def valid_aggregations : List String := ["mean", "sum", "min", "max", "count"]

/-- Symbolic intervals accepted by the route (src/app/api/routes.py line 224). -/
def valid_intervals : List String :=
  ["1m", "5m", "15m", "30m", "1h", "2h", "6h", "12h", "1d"]

/-- Outcome of the `/data/statistics` handler: either control reaches a
`query_statistics` service method, or an HTTP error is raised. -/
inductive StatsOutcome where
  | dispatched
  | httpError (code : ℕ)
deriving DecidableEq

/-- Embeds `routes.query_statistics` (src/app/api/routes.py lines 172-248):
after time-range and enumeration validation the handler evaluates
`query_service.query_statistics(request)`.  The attribute lookup succeeds only
if `QueryService` defines a method of that name; it does not, so the call
raises `AttributeError`, which the generic `except Exception` handler converts
to HTTP 500. -/
def query_statistics_route (redis_key point_id : String) (start_time end_time : ℚ)
    (aggregation interval : String) : StatsOutcome :=
  if end_time ≤ start_time then .httpError 400
  else if !(valid_aggregations.contains aggregation) then .httpError 400
  else if !(valid_intervals.contains interval) then .httpError 400
  else if query_service_method_names.contains "query_statistics" then .dispatched
  else .httpError 500

/-- A probe encoder for exercising `store_batch_data` on concrete inputs:
the sample `0` fails to encode, every other sample encodes to a fixed point. -/
def encodeProbe : ℕ → Except String Point :=
  fun n =>
    if n = 0 then .error "boom"
    else .ok { measurement := "m", tags := [], fields := [], time := 0 }

/-- Concrete row for evaluating the query pipeline: measurement `dev`,
sample at t = 100. -/
def rowDevA : Row :=
  { measurement := "dev", time := 100, redis_key := "dev:1", point_id := "p",
    source := "dev", value := 10 }

/-- Concrete row: measurement `dev`, sample at t = 400 in the same
600-second window as `rowDevA`. -/
def rowDevB : Row :=
  { measurement := "dev", time := 400, redis_key := "dev:1", point_id := "p",
    source := "dev", value := 20 }

/-- Concrete request: one Redis key, interval 600 s (the route default),
page 1 of size 100. -/
def reqDev : QueryRequest :=
  { start_time := some 0, end_time := some 1000, redis_keys := some ["dev:1"],
    point_ids := some ["p"], sources := none, interval := 600, page := 1,
    page_size := 100 }

/-- Concrete row in measurement `a` for Redis key `a:1`. -/
def rowMeasA : Row :=
  { measurement := "a", time := 100, redis_key := "a:1", point_id := "p",
    source := "a", value := 1 }

/-- Concrete row in measurement `b` for Redis key `b:2`, satisfying every
filter of `reqTwoKeys`. -/
def rowMeasB : Row :=
  { measurement := "b", time := 200, redis_key := "b:2", point_id := "p",
    source := "b", value := 2 }

/-- Concrete request listing the two Redis keys `a:1` and `b:2`. -/
def reqTwoKeys : QueryRequest :=
  { start_time := some 0, end_time := some 1000,
    redis_keys := some ["a:1", "b:2"], point_ids := none, sources := none,
    interval := 600, page := 1, page_size := 100 }

/-! ## Theorems -/

theorem bufApply_inv {α : Type} (s : BufState α) (st : BufStep α)
    (h : s.flushed.flatten ++ s.buffer = s.appended) :
    (bufApply s st).flushed.flatten ++ (bufApply s st).buffer = (bufApply s st).appended := by
  cases st with
  | collect xs =>
    by_cases hxs : xs.isEmpty = true
    · simpa [bufApply, hxs] using h
    · simp only [bufApply, hxs, if_false, Bool.false_eq_true]
      rw [← h, List.append_assoc]
  | flush =>
    by_cases hb : s.buffer.isEmpty = true
    · simpa [bufApply, hb] using h
    · simp only [bufApply, hb, if_false, Bool.false_eq_true]
      rw [← h]
      simp [List.flatten_append]

theorem bufRun_inv {α : Type} (steps : List (BufStep α)) (s : BufState α)
    (h : s.flushed.flatten ++ s.buffer = s.appended) :
    (steps.foldl bufApply s).flushed.flatten ++ (steps.foldl bufApply s).buffer
      = (steps.foldl bufApply s).appended := by
  induction steps generalizing s with
  | nil => simpa using h
  | cons st rest ih => exact ih _ (bufApply_inv s st h)

/-- C3: for any interleaving of buffer-append steps (collect) and buffer-drain
steps (flush), each executed atomically under the buffer lock, the multiset
union of all samples handed to storage across all drains plus the samples
still in the live buffer equals the multiset of all appended samples: no
sample is observed by two drains and no append is lost. -/
theorem C3_buffer_conservation {α : Type} (steps : List (BufStep α)) :
    (((bufRun steps).flushed.flatten ++ (bufRun steps).buffer : List α) : Multiset α)
      = ((bufRun steps).appended : Multiset α) := by
  exact congrArg _ (bufRun_inv steps { buffer := [], flushed := [], appended := [] } rfl)

/-- C4 counterexample: eleven consecutive flush-task errors (a sequence of
scheduler task executions containing no scheduler-loop error) leave twelve
minus one entries in `stats["errors"]` — the claimed ≤ 10 bound is violated,
because only the scheduler-loop handler truncates the list. -/
theorem C4_counterexample :
    (runEvents (List.replicate 11 (SchedEvent.taskError TaskKind.flush))).length = 11
    ∧ ¬((runEvents (List.replicate 11 (SchedEvent.taskError TaskKind.flush))).length ≤ 10) := by
  decide

/-- C4 amended: the truncation `stats["errors"][-10:]` is applied only by the
scheduler-loop error handler, so the ≤ 10 bound holds immediately after a
scheduler-loop error is recorded (while task-error appends alone can grow the
list without bound). -/
theorem C4_amended_truncation_on_scheduler_error (evs : List SchedEvent)
    (hne : evs ≠ []) (hlast : evs.getLast hne = SchedEvent.schedulerError) :
    (runEvents evs).length ≤ 10 := by
  have hsplit : evs.dropLast ++ [evs.getLast hne] = evs :=
    List.dropLast_append_getLast hne
  rw [runEvents, ← hsplit, List.foldl_append, hlast]
  simp only [List.foldl_cons, List.foldl_nil, recordEvent, lastTen]
  rw [List.length_drop]
  omega

theorem C4_amended_truncation_on_scheduler_error_w :
    (runEvents [SchedEvent.taskError TaskKind.flush, SchedEvent.schedulerError]).length ≤ 10 :=
  C4_amended_truncation_on_scheduler_error
    [SchedEvent.taskError TaskKind.flush, SchedEvent.schedulerError]
    (by decide) (by decide)

/-- C5: for a boolean-valued sample the encoder emits `value = 1.0` (for true)
or `0.0` (for false) — but NO `boolean_value` field at all, because CPython's
`bool` is a subclass of `int` and the `isinstance(value, (int, float))` branch
captures booleans first, leaving the `boolean_value`-writing branch
unreachable.  Evaluated at the failing inputs `value = True` and
`value = False`. -/
theorem C5_boolean_point_missing_boolean_value :
    ((create_point_from_history_data
        { timestamp := 0, redis_key := "dev:1", point_id := "p1",
          value := .pbool true, source := "dev" }).getField "value"
        = some (.pfloat 1)
      ∧ (create_point_from_history_data
        { timestamp := 0, redis_key := "dev:1", point_id := "p1",
          value := .pbool true, source := "dev" }).getField "boolean_value"
        = none)
    ∧ ((create_point_from_history_data
        { timestamp := 0, redis_key := "dev:1", point_id := "p1",
          value := .pbool false, source := "dev" }).getField "value"
        = some (.pfloat 0)
      ∧ (create_point_from_history_data
        { timestamp := 0, redis_key := "dev:1", point_id := "p1",
          value := .pbool false, source := "dev" }).getField "boolean_value"
        = none) := by
  decide

/-- C6 counterexample: three samples of which the first fails to encode, and
the batched write of the two encoded points fails.  The source then ASSIGNS
`failed = len(points) = 2`, overwriting the encode-failure count, so
`success + failed = 0 + 2 ≠ 3 = total`, refuting the claim that encode
failures are counted in addition and that `success + failed` always equals
`total`. -/
theorem C6_counterexample :
    (store_batch_data encodeProbe false [0, 1, 1]).total = 3
    ∧ (store_batch_data encodeProbe false [0, 1, 1]).success = 0
    ∧ (store_batch_data encodeProbe false [0, 1, 1]).failed = 2
    ∧ (store_batch_data encodeProbe false [0, 1, 1]).success
        + (store_batch_data encodeProbe false [0, 1, 1]).failed
        ≠ (store_batch_data encodeProbe false [0, 1, 1]).total := by
  decide

theorem BatchResult.ext_fields {a b : BatchResult} (h1 : a.total = b.total)
    (h2 : a.success = b.success) (h3 : a.failed = b.failed)
    (h4 : a.errors = b.errors) : a = b := by
  cases a; cases b; simp_all

theorem storeBatchStep_foldl_spec {α : Type} (encode : α → Except String Point)
    (l : List α) (acc : BatchResult × List Point) :
    (l.foldl (storeBatchStep encode) acc).1.total = acc.1.total
    ∧ (l.foldl (storeBatchStep encode) acc).1.success = acc.1.success
    ∧ (l.foldl (storeBatchStep encode) acc).1.failed
        = acc.1.failed + encodeFailures encode l
    ∧ (l.foldl (storeBatchStep encode) acc).2 = acc.2 ++ encodedPoints encode l
    ∧ (l.foldl (storeBatchStep encode) acc).1.errors.length
        = acc.1.errors.length + encodeFailures encode l := by
  induction l generalizing acc with
  | nil => simp [encodeFailures, encodedPoints]
  | cons d rest ih =>
    rw [List.foldl_cons]
    obtain ⟨ih1, ih2, ih3, ih4, ih5⟩ := ih (storeBatchStep encode acc d)
    cases hd : encode d with
    | ok pt =>
      rw [ih1, ih2, ih3, ih4, ih5]
      refine ⟨?_, ?_, ?_, ?_, ?_⟩ <;>
        simp [storeBatchStep, hd, encodeFailures, encodedPoints, Except.toOption]
    | error e =>
      rw [ih1, ih2, ih3, ih4, ih5]
      refine ⟨?_, ?_, ?_, ?_, ?_⟩ <;>
        simp [storeBatchStep, hd, encodeFailures, encodedPoints, Except.toOption] <;>
        omega

theorem encodedPoints_length_add_failures {α : Type}
    (encode : α → Except String Point) (l : List α) :
    (encodedPoints encode l).length + encodeFailures encode l = l.length := by
  induction l with
  | nil => simp [encodedPoints, encodeFailures]
  | cons d rest ih =>
    cases hd : encode d <;>
      simp [encodedPoints, encodeFailures, Except.toOption, hd] at ih ⊢ <;> omega

/-- C6 amended: each encode failure is counted in `failed` and logged in
`errors` without blocking the rest, and the encoded points go out in one
batched write; but when that write fails, `failed` is ASSIGNED the number of
encoded points, replacing (not adding to) the per-sample encode-failure count,
and `success` is 0 — so `success + failed = total` holds whenever the write
succeeds or no sample failed encoding, but NOT when a failed write follows at
least one encode failure. -/
theorem C6_amended_batch_accounting {α : Type} (encode : α → Except String Point)
    (write_ok : Bool) (l : List α) :
    (store_batch_data encode write_ok l).total = l.length
    ∧ (write_ok = true →
        (store_batch_data encode write_ok l).failed = encodeFailures encode l
        ∧ (store_batch_data encode write_ok l).errors.length = encodeFailures encode l
        ∧ (store_batch_data encode write_ok l).success
            + (store_batch_data encode write_ok l).failed = l.length)
    ∧ (encodeFailures encode l = 0 →
        (store_batch_data encode write_ok l).success
          + (store_batch_data encode write_ok l).failed = l.length)
    ∧ ((encodedPoints encode l).isEmpty = false → write_ok = false →
        (store_batch_data encode write_ok l).success = 0
        ∧ (store_batch_data encode write_ok l).failed = (encodedPoints encode l).length
        ∧ (store_batch_data encode write_ok l).errors.length
            = encodeFailures encode l + 1)
    ∧ ((encodedPoints encode l).isEmpty = false → write_ok = false →
        encodeFailures encode l ≠ 0 →
        (store_batch_data encode write_ok l).success
          + (store_batch_data encode write_ok l).failed ≠ l.length) := by
  obtain ⟨h1, h2, h3, h4, h5⟩ := storeBatchStep_foldl_spec encode l
    ({ total := l.length, success := 0, failed := 0, errors := [] }, [])
  have hlen := encodedPoints_length_add_failures encode l
  have key : store_batch_data encode write_ok l =
      if (encodedPoints encode l).isEmpty then
        { total := l.length, success := 0, failed := encodeFailures encode l,
          errors := (l.foldl (storeBatchStep encode)
            ({ total := l.length, success := 0, failed := 0, errors := [] }, [])).1.errors }
      else if write_ok then
        { total := l.length, success := (encodedPoints encode l).length,
          failed := encodeFailures encode l,
          errors := (l.foldl (storeBatchStep encode)
            ({ total := l.length, success := 0, failed := 0, errors := [] }, [])).1.errors }
      else
        { total := l.length, success := 0,
          failed := (encodedPoints encode l).length,
          errors := (l.foldl (storeBatchStep encode)
            ({ total := l.length, success := 0, failed := 0, errors := [] }, [])).1.errors
            ++ ["InfluxDB批量写入失败"] } := by
    simp only [store_batch_data, h4, List.nil_append]
    split_ifs with he hok
    · exact BatchResult.ext_fields (by rw [h1]) (by rw [h2]) (by simp [h3]) rfl
    · exact BatchResult.ext_fields (by rw [h1]) rfl (by simp [h3]) rfl
    · exact BatchResult.ext_fields (by rw [h1]) (by rw [h2]) rfl rfl
  have hempty : (encodedPoints encode l).isEmpty = true → encodeFailures encode l = l.length := by
    intro he
    have : (encodedPoints encode l).length = 0 := by
      simpa [List.isEmpty_iff_length_eq_zero] using he
    omega
  rw [key]
  by_cases he : (encodedPoints encode l).isEmpty = true
  · have hf := hempty he
    cases write_ok <;>
      simp [he, h5] <;> omega
  · rw [Bool.not_eq_true] at he
    cases write_ok <;>
      simp [he, h5] <;> omega

theorem C6_amended_batch_accounting_w :
    (store_batch_data encodeProbe true [0, 1, 1]).failed = encodeFailures encodeProbe [0, 1, 1]
    ∧ (store_batch_data encodeProbe true [0, 1, 1]).errors.length
        = encodeFailures encodeProbe [0, 1, 1]
    ∧ (store_batch_data encodeProbe true [0, 1, 1]).success
        + (store_batch_data encodeProbe true [0, 1, 1]).failed = 3 :=
  (C6_amended_batch_accounting encodeProbe true [0, 1, 1]).2.1 rfl

/-- C7 counterexample: a record whose `_timestamp` is present but not
numeric-parseable while `__updated` is numeric-parseable resolves to the
current wall-clock time (999 here), NOT to the `__updated` time 100 — the
source selects the field by truthiness before parsing and never falls back
across fields on a parse failure. -/
theorem C7_counterexample :
    resolveTimestamp 999 [("_timestamp", "abc"), ("__updated", "100")] = 999
    ∧ pyFloatParse "abc" = none
    ∧ pyFloatParse "100" = some 100
    ∧ (999 : ℚ) ≠ 100 := by
  decide

/-- C7 amended: the timestamp field is selected by presence-and-truthiness
(`pop('_timestamp') or pop('__updated')`): a non-empty `_timestamp` wins
regardless of parseability, and if the selected value fails `float()` the
current wall-clock time is used — there is no fallback from an unparseable
`_timestamp` to `__updated`; when neither field is truthy the wall clock is
used. -/
theorem C7_amended_truthiness_selection (now : ℚ) (h : List (String × String)) :
    (∀ s, truthyStr (lookupField h "_timestamp") = some s →
        resolveTimestamp now h = (pyFloatParse s).getD now)
    ∧ (truthyStr (lookupField h "_timestamp") = none →
        ∀ s, truthyStr (lookupField h "__updated") = some s →
          resolveTimestamp now h = (pyFloatParse s).getD now)
    ∧ (truthyStr (lookupField h "_timestamp") = none →
        truthyStr (lookupField h "__updated") = none →
        resolveTimestamp now h = now) := by
  refine ⟨?_, ?_, ?_⟩
  · intro s hs
    simp only [resolveTimestamp, hs]
    cases pyFloatParse s <;> simp
  · intro h1 s hs
    simp only [resolveTimestamp, h1, hs]
    cases pyFloatParse s <;> simp
  · intro h1 h2
    simp only [resolveTimestamp, h1, h2]

theorem C7_amended_truthiness_selection_w :
    resolveTimestamp 999 [("_timestamp", "also-not-a-number")] = 999 := by
  have h := (C7_amended_truthiness_selection 999
    [("_timestamp", "also-not-a-number")]).1 "also-not-a-number" (by decide)
  rw [h, show pyFloatParse "also-not-a-number" = none from by decide]
  rfl

/-- C8 counterexample: under the source's `re.match`-based matcher the
exclusion pattern `dev` DOES drop the key `device:1` (the translated regex is
anchored only at the start), while the claimed whole-key wildcard glob does
not match it — refuting the claimed iff at this input. -/
theorem C8_counterexample :
    should_exclude_key ["dev"] "device:1" = true
    ∧ claimGlobExcludes ["dev"] "device:1" = false := by
  decide

/-- C8 amended: a key is dropped iff at least one exclusion pattern
wildcard-matches a PREFIX of the key — the `re.match` translation anchors the
pattern at the start of the key but not at its end, so e.g. pattern `dev`
drops `device:1`. -/
theorem C8_amended_anchored_matching (pats : List String) (key : String) :
    should_exclude_key pats key = true ↔
      ∃ p ∈ pats, ∃ l t, l ++ t = key.toList ∧ globMatch p.toList l = true := by
  unfold should_exclude_key reMatchStar
  rw [List.any_eq_true]
  constructor
  · rintro ⟨p, hp, hm⟩
    rw [List.any_eq_true] at hm
    obtain ⟨i, _, hg⟩ := hm
    exact ⟨p, hp, key.toList.take i, key.toList.drop i,
      List.take_append_drop i _, hg⟩
  · rintro ⟨p, hp, l, t, hlt, hg⟩
    refine ⟨p, hp, ?_⟩
    rw [List.any_eq_true]
    refine ⟨l.length, ?_, ?_⟩
    · rw [List.mem_range]
      have hlen : l.length ≤ key.toList.length := by
        rw [← hlt]; simp
      omega
    · rw [← hlt, List.take_left]
      exact hg

theorem C8_amended_anchored_matching_w :
    should_exclude_key ["dev"] "device:9" = true :=
  (C8_amended_anchored_matching ["dev"] "device:9").mpr
    ⟨"dev", by decide, "dev".toList, "ice:9".toList, by decide, by decide⟩

theorem convert_value_fallback (s : String) (hfail : numericParseFails s = true) :
    convert_value (.pstr s) = convertFallback s := by
  unfold numericParseFails at hfail
  by_cases hdot : strContainsChar s '.' = true
  · rw [if_pos hdot, Option.isNone_iff_eq_none] at hfail
    simp [convert_value, hdot, hfail]
  · rw [if_neg hdot, Option.isNone_iff_eq_none] at hfail
    simp [convert_value, hdot, hfail]

/-- C9: raw-string coercion applies the claimed precedence exactly — a string
containing a dot takes the float parse when it succeeds; otherwise the integer
parse when it succeeds; when the attempted numeric parse fails, a
case-insensitive `true`/`false` comparison yields a boolean; otherwise the
string is returned unchanged; non-strings pass through — with the claimed
examples `"5"→int 5`, `"5.0"→float 5.0`, `"TRUE"→bool true`,
`"abc"→string "abc"`, `"5abc"→string "5abc"`. -/
theorem C9_value_coercion :
    (∀ s q, strContainsChar s '.' = true → pyFloatParse s = some q →
        convert_value (.pstr s) = .pfloat q)
    ∧ (∀ s n, strContainsChar s '.' = false → pyIntParse s = some n →
        convert_value (.pstr s) = .pint n)
    ∧ (∀ s, numericParseFails s = true → strLower s = "true" →
        convert_value (.pstr s) = .pbool true)
    ∧ (∀ s, numericParseFails s = true → strLower s = "false" →
        convert_value (.pstr s) = .pbool false)
    ∧ (∀ s, numericParseFails s = true → strLower s ≠ "true" →
        strLower s ≠ "false" → convert_value (.pstr s) = .pstr s)
    ∧ (∀ v, isinstance_str v = false → convert_value v = v)
    ∧ convert_value (.pstr "5") = .pint 5
    ∧ convert_value (.pstr "5.0") = .pfloat 5
    ∧ convert_value (.pstr "TRUE") = .pbool true
    ∧ convert_value (.pstr "abc") = .pstr "abc"
    ∧ convert_value (.pstr "5abc") = .pstr "5abc" := by
  refine ⟨?_, ?_, ?_, ?_, ?_, ?_,
    by decide, by decide, by decide, by decide, by decide⟩
  · intro s q hdot hq
    simp [convert_value, hdot, hq]
  · intro s n hdot hn
    simp [convert_value, hdot, hn]
  · intro s hfail htrue
    rw [convert_value_fallback s hfail]
    simp [convertFallback, htrue]
  · intro s hfail hfalse
    rw [convert_value_fallback s hfail]
    simp [convertFallback, hfalse]
  · intro s hfail htrue hfalse
    rw [convert_value_fallback s hfail]
    simp [convertFallback, beq_eq_false_iff_ne.mpr htrue,
      beq_eq_false_iff_ne.mpr hfalse]
  · intro v hv
    cases v <;> first
      | rfl
      | simp [isinstance_str] at hv

theorem C9_value_coercion_w :
    convert_value (.pstr "7.5") = .pfloat (mkRat 75 10) :=
  C9_value_coercion.1 "7.5" (mkRat 75 10) (by decide) (by decide)

theorem mem_insertDesc (a r : Row) (l : List Row) :
    a ∈ insertDesc r l ↔ a = r ∨ a ∈ l := by
  induction l with
  | nil => simp [insertDesc]
  | cons x xs ih =>
    by_cases hx : x.time < r.time
    · simp [insertDesc, hx]
    · simp only [insertDesc, hx, if_false, List.mem_cons, ih]
      tauto

theorem mem_sortByTimeDesc (a : Row) (l : List Row) :
    a ∈ sortByTimeDesc l ↔ a ∈ l := by
  induction l with
  | nil => simp [sortByTimeDesc]
  | cons x xs ih =>
    unfold sortByTimeDesc at ih ⊢
    rw [List.foldr_cons, mem_insertDesc, ih, List.mem_cons]

/-- C10: with a non-empty `redis_keys` the compiled query reads only from the
measurement derived from the FIRST listed key (its segment before the first
colon), so stored rows of other listed keys living under a different
measurement are never returned even though they satisfy the WHERE filters —
demonstrated concretely by `rowMeasB` (`b:2`) being dropped from a query
listing `["a:1", "b:2"]`; with no `redis_keys` the query targets all
measurements (the selected table is the whole store). -/
theorem C10_measurement_scope :
    (∀ store now req k ks, req.redis_keys = some (k :: ks) →
        get_measurement_from_redis_key k ≠ "*" →
        ∀ r ∈ query_history_data store now req,
          r.measurement = get_measurement_from_redis_key k)
    ∧ (∀ store now req, req.redis_keys = none →
        selectedRows store now req = store.filter (rowMatches now req))
    ∧ (rowMatches 1000 reqTwoKeys rowMeasB = true
        ∧ rowMeasB ∉ query_history_data [rowMeasA, rowMeasB] 1000 reqTwoKeys
        ∧ query_history_data [rowMeasA, rowMeasB] 1000 reqTwoKeys = [rowMeasA]) := by
  refine ⟨?_, ?_, by decide⟩
  · intro store now req k ks hkeys hstar r hr
    unfold query_history_data at hr
    have h1 : r ∈ sortByTimeDesc (selectedRows store now req) :=
      List.mem_of_mem_drop (List.mem_of_mem_take hr)
    rw [mem_sortByTimeDesc] at h1
    unfold selectedRows at h1
    rw [show requestMeasurement req = get_measurement_from_redis_key k by
          unfold requestMeasurement; rw [hkeys]] at h1
    simp only [if_neg hstar] at h1
    have h2 := (List.mem_filter.mp h1).1
    exact beq_iff_eq.mp (List.mem_filter.mp h2).2
  · intro store now req hkeys
    unfold selectedRows requestMeasurement
    rw [hkeys]
    simp

theorem C10_measurement_scope_w :
    rowMeasA.measurement = get_measurement_from_redis_key "a:1" :=
  C10_measurement_scope.1 [rowMeasA, rowMeasB] 1000 reqTwoKeys "a:1" ["b:2"]
    rfl (by decide) rowMeasA (by decide)

/-- C1: the query pipeline performs NO downsampling whatsoever — the compiled
SQL never reads `request.interval`, so the result is identical for every
interval value, and at the failing input (collection interval C = 5, request
interval 600 > C, two raw samples inside one 600-second window) both raw rows
are returned unaveraged instead of the one mean-aggregated point per window
the claim requires. -/
theorem C1_query_ignores_interval :
    (∀ store now req i,
        query_history_data store now { req with interval := i }
          = query_history_data store now req)
    ∧ query_history_data [rowDevA, rowDevB] 1000 reqDev = [rowDevB, rowDevA]
    ∧ reqDev.interval > data_collection_interval_default
    ∧ rowDevA.value ≠ rowDevB.value := by
  refine ⟨?_, by decide, by decide, by decide⟩
  intro store now req i
  cases req
  rfl

/-- C2: every statistics request passing the route's validation (positive time
range, aggregation in {mean,sum,min,max,count}, valid symbolic interval) ends
in HTTP 500 instead of being served: the handler calls
`query_service.query_statistics(request)` but `QueryService` defines no such
method, so the attribute lookup raises `AttributeError`, converted to 500 by
the generic exception handler. -/
theorem C2_statistics_route_unserved (rk pid : String) (s e : ℚ)
    (agg iv : String) (hse : s < e) (hagg : agg ∈ valid_aggregations)
    (hiv : iv ∈ valid_intervals) :
    query_statistics_route rk pid s e agg iv = .httpError 500 := by
  have h1 : ¬(e ≤ s) := not_le.mpr hse
  have h2 : valid_aggregations.contains agg = true := List.elem_eq_true_of_mem hagg
  have h3 : valid_intervals.contains iv = true := List.elem_eq_true_of_mem hiv
  unfold query_statistics_route
  rw [if_neg h1, h2, h3]
  decide

theorem C2_statistics_route_unserved_w :
    query_statistics_route "comsrv:device001:sensors" "temperature" 0 3600
      "mean" "1h" = .httpError 500 :=
  C2_statistics_route_unserved "comsrv:device001:sensors" "temperature" 0 3600
    "mean" "1h" (by decide) (by decide) (by decide)

end Hissrv
